import Mathlib

/-!
Verification of the dynamic resolution and class-augmentation engine of the
dypy/dycode repository, as a shallow embedding in Lean 4.

The embedding follows the Python source files:
  - dycode/get_value.py   (path resolver)
  - dycode/functions.py   (code descriptor evaluator, context registry)
  - dycode/core/evaluate.py (unified evaluator)
  - dycode/wrappers/field_wrapper.py  (dynamic field engine)
  - dycode/wrappers/method_wrapper.py (dynamic method engine)
  - dycode/wrappers/utils.py (strictness enforcer)

Python values are embedded as the inductive type Value below; Python
exceptions as the Err type, with fallible code returning Except Err.
The host import machinery and the text-execution facility (the
builtin import, eval and exec) are external collaborators of the engine;
embedded as explicit data: an import environment mapping dotted names to
the value the builtin import returns for them, and, for each piece of
program text, its behavior as a single expression and as a code block.
-/

namespace Dy

/-- Embedded Python values. Mappings (dict), modules and plain objects carry
their entries or attributes as association lists; pyfunc is a function
object carrying its declared parameter names and its globals mapping
(the payload of types.FunctionType); wrapped marks the callable produced
by dynamic_args_wrapper around an inner callable. -/
inductive Value where
  | none : Value
  | int (n : Int) : Value
  | str (s : String) : Value
  | dict (entries : List (String × Value)) : Value
  | module (nm : String) (attrs : List (String × Value)) : Value
  | obj (attrs : List (String × Value)) : Value
  | pyfunc (params : List String) (genv : List (String × Value)) : Value
  | wrapped (f : Value) : Value

/-- Embedded Python exceptions raised by the engine. importError carries
the name that could not be imported; keyError and attributeError carry the
unresolved remaining path (the payload of the message the source formats);
composite embeds both underlying failures of the unified evaluator
(the ValueError of core/evaluate.py whose message interpolates the value
error and the function error). -/
inductive Err where
  | importError (name : String) : Err
  | keyError (msg : String) : Err
  | attributeError (msg : String) : Err
  | syntaxError : Err
  | assertionError (msg : String) : Err
  | typeError (msg : String) : Err
  | notImplementedError (msg : String) : Err
  | nameError (msg : String) : Err
  | valueError (msg : String) : Err
  | composite (value_error : Err) (function_error : Err) : Err
  | exceptionError (msg : String) : Err

/-- A Python dict over string keys, with insertion order. -/
abbrev Ctx := List (String × Value)

/-- First-match lookup in an association list (dict indexing; keys kept
unique by dinsert, so first match is the match). -/
def dlookup {α : Type} (d : List (String × α)) (k : String) : Option α :=
  match d with
  | [] => Option.none
  | (k2, v) :: rest => if k2 = k then some v else dlookup rest k

/-- Last-match lookup; used to state which value a sequence of dict updates
leaves behind when the updating list mentions a key twice. -/
def dlookupR {α : Type} (d : List (String × α)) (k : String) : Option α :=
  match d with
  | [] => Option.none
  | (k2, v) :: rest =>
    match dlookupR rest k with
    | some v2 => some v2
    | Option.none => if k2 = k then some v else Option.none

/-- Dict item assignment d[k] = v: replace the first binding of k in place,
else append the new binding (Python dict semantics: existing keys keep
their position, new keys go last). -/
def dinsert {α : Type} (d : List (String × α)) (k : String) (v : α) :
    List (String × α) :=
  match d with
  | [] => [(k, v)]
  | (k2, v2) :: rest =>
    if k2 = k then (k2, v) :: rest else (k2, v2) :: dinsert rest k v

/-- Dict update d.update(e): assign every binding of e into d, in order. -/
def dupdate {α : Type} (d e : List (String × α)) : List (String × α) :=
  e.foldl (fun acc kv => dinsert acc kv.1 kv.2) d

/-- Python str.split on a dot, accumulator over characters. -/
def splitDotsChars : List Char → List Char → List String
  | [], acc => [String.mk acc.reverse]
  | c :: rest, acc =>
    if c = '.' then String.mk acc.reverse :: splitDotsChars rest []
    else splitDotsChars rest (c :: acc)

/-- name.split with a dot separator, as used throughout get_value.py. -/
def splitDots (s : String) : List String := splitDotsChars s.data []

/-- Python truthiness of an embedded value, as used by the source in
conditions such as (context or dict()) and (if val.context). -/
def truthy : Value → Bool
  | Value.none => false
  | Value.int n => n != 0
  | Value.str s => s != ""
  | Value.dict d => !d.isEmpty
  | Value.module _ _ => true
  | Value.obj _ => true
  | Value.pyfunc _ _ => true
  | Value.wrapped _ => true

/-- Python callable(v) for embedded values: function objects and the
wrappers produced by dynamic_args_wrapper. -/
def callableV : Value → Bool
  | Value.pyfunc _ _ => true
  | Value.wrapped _ => true
  | _ => false

/-- Python isinstance(v, dict). -/
def isDict : Value → Bool
  | Value.dict _ => true
  | _ => false

/-- Python inspect.ismodule(v). -/
def isModule : Value → Bool
  | Value.module _ _ => true
  | _ => false

/-- Python v is None. -/
def isNone : Value → Bool
  | Value.none => true
  | _ => false

/-- hasattr and getattr combined for embedded values: modules and plain
objects expose their attribute lists; other values expose no attributes
relevant to dotted-path resolution. -/
def attrLookup : Value → String → Option Value
  | Value.module _ attrs, k => dlookup attrs k
  | Value.obj attrs, k => dlookup attrs k
  | _, _ => Option.none

/-- The ambient import machinery, as seen by importer in get_value.py:
for each dotted name, the value the import returns for it, when it
succeeds. The builtin import with no fromlist returns the top-level
package of a dotted name; a concrete environment mirrors that by mapping
each importable dotted name to the corresponding root module object. The
current-working-directory fallback of importer is likewise folded into
this mapping. -/
abbrev ImportEnv := List (String × Value)

/-- The process-wide state the engine reads: the import machinery and the
CONTEXT_REGISTRY dict of functions.py. -/
structure GlobalState where
  env : ImportEnv
  registry : Ctx

/-- importer of get_value.py: load a dotted name through the ambient
machinery (standard import, else the cwd source-file fallback), raising
when the name is unloadable. -/
def importer (st : GlobalState) (name : String) : Except Err Value :=
  match dlookup st.env name with
  | some v => Except.ok v
  | Option.none => Except.error (Err.importError name)

/-- Trial prefix lengths of greedy_import_context: upwards tries 1 up to
len - level segments; downwards tries len - level segments down to 0. -/
def trialIndices (len level : Nat) (upwards : Bool) : List Nat :=
  if upwards then (List.range (len - level)).map (fun i => i + 1)
  else (List.range (len - level + 1)).reverse

/-- The loop body of greedy_import_context: try each prefix length in
order, stopping at the first import that succeeds; the returned suffix is
cut at the last tried index (the loop variable keeps its final value when
every import fails). The imported-module variable starts as Python None,
so exhausting every trial yields the None value together with that
suffix. -/
def greedyGo (st : GlobalState) (h : List String) :
    List Nat → Value × String
  | [] => (Value.none, String.intercalate "." h)
  | [i] =>
    match importer st (String.intercalate "." (h.take i)) with
    | Except.ok m => (m, String.intercalate "." (h.drop i))
    | Except.error _ => (Value.none, String.intercalate "." (h.drop i))
  | i :: j :: rest =>
    match importer st (String.intercalate "." (h.take i)) with
    | Except.ok m => (m, String.intercalate "." (h.drop i))
    | Except.error _ => greedyGo st h (j :: rest)

/-- greedy_import_context of get_value.py. An empty trial range leaves the
loop variable unbound in the source (a NameError); that case is embedded
as an error and is unreachable for level = 0. -/
def greedy_import_context (st : GlobalState) (name : String)
    (upwards : Bool) (level : Nat) : Except Err (Value × String) :=
  let h := splitDots name
  match trialIndices h.length level upwards with
  | [] => Except.error (Err.nameError "trial_index")
  | i :: rest => Except.ok (greedyGo st h (i :: rest))

/-- The per-segment resolution loop of the double-underscore get_value:
key lookup on dicts, attribute lookup otherwise; on a miss, raise when
strict (the message carries the remaining unresolved name), else return
None. -/
def resolveSegs (strict : Bool) (restName : String) :
    Value → List String → Except Err Value
  | var, [] => Except.ok var
  | var, s :: rest =>
    match var with
    | Value.dict d =>
      match dlookup d s with
      | some v => resolveSegs strict restName v rest
      | Option.none =>
        if strict then Except.error (Err.keyError restName)
        else Except.ok Value.none
    | _ =>
      match attrLookup var s with
      | some v => resolveSegs strict restName v rest
      | Option.none =>
        if strict then Except.error (Err.attributeError restName)
        else Except.ok Value.none

/-- The double-underscore get_value of get_value.py: pick the root (the
explicit context, or the greedy import when context is None), then resolve
the remaining dotted suffix segment by segment; an empty remaining name
skips the loop and returns the root itself. -/
def get_value_inner (st : GlobalState) (name : String) (strict : Bool)
    (upwards : Bool) (context : Option Value) : Except Err Value :=
  match (match context with
         | Option.none => greedy_import_context st name upwards 0
         | some c => Except.ok (c, name)) with
  | Except.error e => Except.error e
  | Except.ok (var, rest) =>
    resolveSegs strict rest var (if rest = "" then [] else splitDots rest)

/-- The single-underscore get_value of get_value.py: run the inner
resolution in both directions, each failure swallowed; no result raises
ImportError; a lone result is returned; with two results, a None produced
by exactly one side under non-strict mode loses to the other side,
otherwise the first (upwards) result is returned unless prefer_modules is
set, in which case the second (downwards) result is returned when it is a
module and the first otherwise. -/
def get_value_both (st : GlobalState) (name : String)
    (prefer_modules : Bool) (strict : Bool) (context : Option Value) :
    Except Err Value :=
  let r1 := get_value_inner st name strict true context
  let r2 := get_value_inner st name strict false context
  let results :=
    (match r1 with | Except.ok v => [v] | Except.error _ => []) ++
    (match r2 with | Except.ok v => [v] | Except.error _ => [])
  match results with
  | [] => Except.error (Err.importError name)
  | [v] => Except.ok v
  | v1 :: v2 :: _ =>
    if !strict && isNone v1 && !(isNone v2) then Except.ok v2
    else if !strict && !(isNone v1) && isNone v2 then Except.ok v1
    else if prefer_modules then
      (if isModule v2 then Except.ok v2 else Except.ok v1)
    else Except.ok v1

/-- The retry loop of get_value catches only KeyError, AttributeError and
ImportError; any other failure propagates at once. -/
def retryable : Err → Bool
  | Err.keyError _ => true
  | Err.attributeError _ => true
  | Err.importError _ => true
  | _ => false

/-- The num_trys - 1 guarded attempts of get_value followed by the final
unguarded attempt. -/
def get_value_go (st : GlobalState) (name : String) (prefer_modules : Bool)
    (strict : Bool) (context : Option Value) : Nat → Except Err Value
  | 0 => get_value_both st name prefer_modules strict context
  | Nat.succ k =>
    match get_value_both st name prefer_modules strict context with
    | Except.ok v => Except.ok v
    | Except.error e =>
      if retryable e then get_value_go st name prefer_modules strict context k
      else Except.error e

/-- get_value of get_value.py, the top-level path resolver entry point
(its source defaults: prefer_modules false, strict true, context None,
num_trys 3; callers here always pass every argument). -/
def get_value (st : GlobalState) (name : String) (prefer_modules : Bool)
    (strict : Bool) (context : Option Value) (num_trys : Nat) :
    Except Err Value :=
  get_value_go st name prefer_modules strict context (num_trys - 1)

example :
    get_value ⟨[("math", Value.module "math" [("sin", Value.pyfunc ["x"] [])])], []⟩
      "math.sin" false true Option.none 3 =
    Except.ok (Value.pyfunc ["x"] []) := by rfl

example :
    get_value ⟨[], []⟩ "x" false true (some (Value.dict [("x", Value.int 7)])) 3 =
    Except.ok (Value.int 7) := by rfl

/-- A piece of Python program text: its literal characters (split and
joined by the resolver), together with its behavior under the host
text-execution facility: evaluated as a single expression in a scope, or
executed as a code block in a scope, yielding the names the block
defined. A SyntaxError from asExpr is the signal that the text is not a
single expression. -/
structure PyStr where
  text : String
  asExpr : Ctx → Except Err Value
  asBlock : Ctx → Except Err (List (String × Value))

/-- A function descriptor of functions.py: a Python string, a dict with
the keys code, context and function_of_interest (each optional: absent
keys are absent fields; any other dict is the record with the matching
keys absent), or any other value (callables and non-str non-dict values,
which eval_function passes through unchanged; Python strings are always
embedded as the code constructor). -/
inductive Descriptor where
  | code (s : PyStr) : Descriptor
  | record (c : Option PyStr) (rctx : Option Ctx)
      (rfoi : Option String) : Descriptor
  | value (v : Value) : Descriptor

/-- register_context of functions.py: write the context into the
process-wide CONTEXT_REGISTRY under the given name (the source defaults
the name to the __name__ attribute of the context; callers here always
pass it). -/
def register_context (st : GlobalState) (context : Value) (name : String) :
    GlobalState :=
  GlobalState.mk st.env (dinsert st.registry name context)

/-- dynamic_args_wrapper of functions.py: inspect.signature raises
TypeError on a non-callable; otherwise the returned wrapper is a new
callable around the original that drops unknown keyword arguments at call
time (calls are not modeled; the wrapped constructor records the
wrapping). -/
def dynamic_args_wrapper (f : Value) : Except Err Value :=
  if callableV f then Except.ok (Value.wrapped f)
  else Except.error (Err.typeError "signature")

/-- generate_function of functions.py: execute the code block with a fresh
empty globals dict and a fresh empty locals dict (so the block sees no
outside names), look up the selector among the names the block defined
(KeyError when absent), read its code object (AttributeError when the
selected value is not a function), and rebuild the function with the
defined names of the block as its globals. -/
def generate_function (code_block : PyStr) (function : String) :
    Except Err Value :=
  match code_block.asBlock [] with
  | Except.error e => Except.error e
  | Except.ok defined =>
    match dlookup defined function with
    | Option.none => Except.error (Err.keyError function)
    | some v =>
      match v with
      | Value.pyfunc params _ => Except.ok (Value.pyfunc params defined)
      | _ => Except.error (Err.attributeError "__code__")

/-- The expression (context or dict()) followed by context.update: a falsy
context argument (None, an empty dict) is replaced by a fresh empty dict;
a truthy dict is used - and hence mutated - itself; a truthy non-dict has
no update attribute. -/
def ctxBaseE (context : Option Value) : Except Err Ctx :=
  match context with
  | Option.none => Except.ok []
  | some v =>
    if truthy v then
      match v with
      | Value.dict d => Except.ok d
      | _ => Except.error (Err.attributeError "update")
    else Except.ok []

/-- The state of the caller-supplied context object after the in-place
updates of eval_function: only a truthy (non-empty) dict argument is
aliased by the local context variable and mutated; every other argument is
left as it was. -/
def callerCtxAfter (context : Option Value) (merged : Ctx) : Option Value :=
  match context with
  | some (Value.dict d) =>
    if !d.isEmpty then some (Value.dict merged) else some (Value.dict d)
  | other => other

/-- The final line of eval_function: wrap the result when dynamic_args is
set (a propagating exception is not wrapped). -/
def bindWrap (dynamic_args : Bool) (res : Except Err Value) :
    Except Err Value :=
  if dynamic_args then
    (match res with
     | Except.ok v => dynamic_args_wrapper v
     | Except.error e => Except.error e)
  else res

/-- The assertion message of the code-block branch of eval_function. -/
def foiAssertMsg : String :=
  "function_of_interest must be specified when using a code block as a function descriptor."

/-- eval_function of functions.py, with the post-call state of the
caller-supplied context object as second component. A callable or
non-str non-dict descriptor is passed through. Otherwise the evaluation
context is built by mutating the context argument (or a fresh dict when
it is falsy) with the CONTEXT_REGISTRY and then, for a dict descriptor,
with its context entry, in that order; the code is then evaluated as a
single expression in that context. A SyntaxError switches to the
code-block branch: assert that a selector is available (the explicit
argument for a string descriptor; for a dict descriptor its own
function_of_interest entry, else the explicit argument - dict.get gives
the entry priority), then generate_function extracts it. The dict updates
happen before the code key is read, so a dict descriptor without a code
key mutates the context and then raises KeyError. -/
def evalFunctionCore (st : GlobalState) (fd : Descriptor)
    (function_of_interest : Option String) (context : Option Value)
    (dynamic_args : Bool) : Except Err Value × Option Value :=
  match fd with
  | Descriptor.value v =>
    ((if dynamic_args then dynamic_args_wrapper v else Except.ok v), context)
  | Descriptor.code s =>
    (match ctxBaseE context with
     | Except.error e => (Except.error e, context)
     | Except.ok base =>
       let merged := dupdate base st.registry
       let res :=
         match s.asExpr merged with
         | Except.ok v => Except.ok v
         | Except.error Err.syntaxError =>
           (match function_of_interest with
            | Option.none => Except.error (Err.assertionError foiAssertMsg)
            | some foi => generate_function s foi)
         | Except.error e => Except.error e
       (bindWrap dynamic_args res, callerCtxAfter context merged))
  | Descriptor.record c rctx rfoi =>
    (match ctxBaseE context with
     | Except.error e => (Except.error e, context)
     | Except.ok base =>
       let merged :=
         dupdate (dupdate base st.registry)
           (match rctx with | some d => d | Option.none => [])
       let res :=
         match c with
         | Option.none => Except.error (Err.keyError "code")
         | some s =>
           match s.asExpr merged with
           | Except.ok v => Except.ok v
           | Except.error Err.syntaxError =>
             (match rfoi with
              | some rs => generate_function s rs
              | Option.none =>
                match function_of_interest with
                | some foi => generate_function s foi
                | Option.none => Except.error (Err.assertionError foiAssertMsg))
           | Except.error e => Except.error e
       (bindWrap dynamic_args res, callerCtxAfter context merged))

/-- eval_function as seen by a caller interested only in the value. -/
def eval_function (st : GlobalState) (fd : Descriptor)
    (function_of_interest : Option String) (context : Option Value)
    (dynamic_args : Bool) : Except Err Value :=
  (evalFunctionCore st fd function_of_interest context dynamic_args).fst

/-- The call get_value(expression, context, strict=True) made by the
unified evaluator, where expression may be any descriptor. Only a string
has the split method: for a truthy non-string expression the split call
(in the segment loop when an explicit context skips the greedy import,
in the greedy import itself otherwise) raises AttributeError inside the
inner resolver, the bare excepts of the direction-reconciling caller
swallow it from both directions, the empty result list raises
ImportError, and the retry loop of get_value re-raises that ImportError
after exhausting its budget; a falsy non-string expression with an
explicit context skips the segment loop entirely and returns the
context. A dict descriptor is falsy exactly when it has none of its
keys. -/
def get_value_d (st : GlobalState) (expression : Descriptor)
    (context : Option Value) : Except Err Value :=
  match expression with
  | Descriptor.code s => get_value st s.text false true context 3
  | Descriptor.record c rctx rfoi =>
    (match context with
     | some cv =>
       if c.isSome || rctx.isSome || rfoi.isSome then
         Except.error (Err.importError "expression")
       else Except.ok cv
     | Option.none => Except.error (Err.importError "expression"))
  | Descriptor.value v =>
    (match context with
     | some cv =>
       if truthy v then Except.error (Err.importError "expression")
       else Except.ok cv
     | Option.none => Except.error (Err.importError "expression"))

/-- eval of core/evaluate.py, the unified evaluator: run the value lookup
(always strict) and the function evaluation, each with its failure
captured; a successful value lookup wins (wrapped when dynamic_args is
set and the value is callable), else a successful function evaluation,
else with strict a ValueError embedding both captured failures, else
None. -/
def eval (st : GlobalState) (expression : Descriptor) (context : Option Value)
    (strict : Bool) (function_of_interest : Option String)
    (dynamic_args : Bool) : Except Err Value :=
  let valueRes := get_value_d st expression context
  let functionRes :=
    (evalFunctionCore st expression function_of_interest context dynamic_args).fst
  match valueRes with
  | Except.ok v =>
    if callableV v then
      (if dynamic_args then dynamic_args_wrapper v else Except.ok v)
    else Except.ok v
  | Except.error value_error =>
    match functionRes with
    | Except.ok fv => Except.ok fv
    | Except.error function_error =>
      if strict then Except.error (Err.composite value_error function_error)
      else Except.ok Value.none

/-- DynamicField of wrappers/field_wrapper.py (the dycode variant cited by
the claims), with the attributes its constructor assigns. -/
structure DynamicField where
  strict : Bool
  prefer_modules : Bool
  eval : Bool
  context : Option Value
  _value : Value

/-- The value property of DynamicField: the literal stored value for a
non-eval field, else the stored value resolved through get_value with the
field's own options and context. A non-string stored value fails like any
non-string name given to get_value: the AttributeError from the split
call is swallowed by the bare excepts of the direction-reconciling
resolver, which then raises ImportError, re-raised by the retry loop; a
falsy non-string with an explicit context resolves to that context. -/
def DynamicField.valueP (st : GlobalState) (f : DynamicField) :
    Except Err Value :=
  if f.eval then
    match f._value with
    | Value.str s => get_value st s f.prefer_modules f.strict f.context 3
    | v =>
      (match f.context with
       | some cv =>
         if truthy v then Except.error (Err.importError "field")
         else Except.ok cv
       | Option.none => Except.error (Err.importError "field"))
  else Except.ok f._value

/-- field of field_wrapper.py: construct a DynamicField. -/
def field (value : Value) (eval : Bool) (prefer_modules : Bool)
    (strict : Bool) (context : Option Value) : DynamicField :=
  DynamicField.mk strict prefer_modules eval context value

/-- The per-type capability table _FIELDS: logical field name to the pair
of its annotation (embedded as the name of the type) and its resolved
default value. -/
abbrev FieldsTable := List (String × (String × Value))

/-- The name of the capability-table attribute set by the field engine. -/
def FIELDS_MARKER : String := "__dycode_fields__"

/-- Python type(v).__name__ for embedded values, used when a dynamic field
has no declared annotation. -/
def typeName : Value → String
  | Value.none => "NoneType"
  | Value.int _ => "int"
  | Value.str _ => "str"
  | Value.dict _ => "dict"
  | Value.module _ _ => "module"
  | Value.obj _ => "object"
  | Value.pyfunc _ _ => "function"
  | Value.wrapped _ => "function"

/-- An instance under construction: its attribute dict. -/
abbrev Instance := List (String × Value)

/-- A constructor keyword argument of the rewritten init: either a plain
value or a DynamicField object (both accepted by new_init). -/
inductive KwVal where
  | plain (v : Value) : KwVal
  | dyn (f : DynamicField) : KwVal

/-- The runtime class of the instance being constructed
(self.__class__): the capability table reachable on it (own or
inherited, getattr with default), and the names present directly in its
own namespace (its __dict__). -/
structure RTClass where
  fields : FieldsTable
  ownNames : List String

/-- A constructor: runtime class of the instance, the instance, the
keyword arguments. Positional arguments play no part in the claims and
are omitted. -/
abbrev InitFn := RTClass → Instance → List (String × KwVal) → Except Err Instance

/-- The message of the AttributeError raised by the strictness enforcer
(its source text names the strict base class and asks for the decorator
on the child). -/
def strictViolationMsg : String := "strict class"

/-- make_inheritence_strict of wrappers/utils.py: before delegating to the
previous constructor, check that the required attribute is present
directly in the namespace of the runtime type of the instance being
constructed, not merely inherited; raise AttributeError otherwise.
Nothing runs when a subclass is merely defined: the check fires at
instantiation. -/
def make_inheritence_strict (old_init : InitFn)
    (attribute_to_check : String) : InitFn :=
  fun rt self kwargs =>
    if attribute_to_check ∈ rt.ownNames then old_init rt self kwargs
    else Except.error (Err.attributeError strictViolationMsg)

/-- The class as _dynamize_fields receives it: for every entry of
cls.__mro__[-1:0:-1] (ancestors, most base first, the class itself
excluded) the _FIELDS table when that ancestor was decorated (getattr
with default None); the DynamicField-valued entries of the own class
dict in declaration order; the own __annotations__ dict (annotations
embedded as type names); the module globals of the defining module; the
names of the own class dict; and the constructor being replaced. -/
structure RawClass where
  ancestorFields : List (Option FieldsTable)
  ownDyn : List (String × DynamicField)
  clsAnns : List (String × String)
  globalsD : Ctx
  ownNames : List String
  prevInit : InitFn

/-- The expression (indicator_prefix or "") of _dynamize_fields. -/
def prefOf (indicator_pref : Option String) : String :=
  match indicator_pref with | some p => p | Option.none => ""

/-- Whether the first character list starts the second. -/
def isPrefixChars : List Char → List Char → Bool
  | [], _ => true
  | _ :: _, [] => false
  | a :: as, b :: bs => a == b && isPrefixChars as bs

/-- Python name.startswith(p). -/
def startswith (p s : String) : Bool := isPrefixChars p.data s.data

/-- Python name[n:] over characters. -/
def strDrop (s : String) (n : Nat) : String := String.mk (s.data.drop n)

/-- The ancestor-merging loop of _dynamize_fields (field_wrapper.py lines
111-121): walk the recorded tables most base first and add each field
only when its name is not already present, so among ancestors the first
(most base) declaration of a name is the one kept. -/
def addAbsent (acc tbl : FieldsTable) : FieldsTable :=
  tbl.foldl (fun a kv => if (dlookup a kv.1).isSome then a else a ++ [kv]) acc

/-- Fold addAbsent over the ancestor tables (None entries are skipped). -/
def mergeAncestors (ts : List (Option FieldsTable)) : FieldsTable :=
  ts.foldl
    (fun a ot => match ot with | some t => addAbsent a t | Option.none => a) []

/-- The own-declaration scan of _dynamize_fields (lines 126-152): for each
DynamicField entry whose name starts with the indicator prefix, reject a
truthy field context (NotImplementedError), point the field context at the
module globals, resolve the default through the value property, infer the
annotation (declared, else the type of the resolved value), and assign
under the prefix-stripped name, overriding anything the ancestor merge
put there. -/
def harvestOwn (st : GlobalState) (pref : String) (globalsD : Ctx)
    (clsAnns : List (String × String)) :
    FieldsTable → List (String × DynamicField) → Except Err FieldsTable
  | acc, [] => Except.ok acc
  | acc, (name, val) :: rest =>
    if startswith pref name then
      if (match val.context with
          | some cv => truthy cv
          | Option.none => false) then
        Except.error (Err.notImplementedError
          "Context merging is not yet implemented in the field wrapper")
      else
        match DynamicField.valueP st
            (DynamicField.mk val.strict val.prefer_modules val.eval
              (some (Value.dict globalsD)) val._value) with
        | Except.error e => Except.error e
        | Except.ok value =>
          let actual_name := strDrop name pref.data.length
          let ann :=
            match dlookup clsAnns name with
            | some a => a
            | Option.none => typeName value
          harvestOwn st pref globalsD clsAnns
            (dinsert acc actual_name (ann, value)) rest
    else harvestOwn st pref globalsD clsAnns acc rest

/-- The constructor-supplied overrides pass of set_all_values: a
DynamicField object goes through its value property, a plain value is
assigned as is. -/
def applyKw (st : GlobalState) :
    Instance → List (String × KwVal) → Except Err Instance
  | inst, [] => Except.ok inst
  | inst, (name, KwVal.plain v) :: rest => applyKw st (dinsert inst name v) rest
  | inst, (name, KwVal.dyn f) :: rest =>
    match DynamicField.valueP st f with
    | Except.error e => Except.error e
    | Except.ok v => applyKw st (dinsert inst name v) rest

/-- new_init of _dynamize_fields (lines 173-203): split the keyword
arguments on membership in the decoration-time field table; set every
field of the runtime class table to its default and re-apply the
supplied overrides, run the previous constructor on the remaining
keywords, then set and re-apply once more, so the defaults and overrides
stand even when the previous constructor wrote those attributes. -/
def new_init (st : GlobalState) (dynamic_fields : FieldsTable)
    (prev_init : InitFn) : InitFn :=
  fun rt self kwargs =>
    let del_from_kwargs :=
      kwargs.filter (fun kv => (dlookup dynamic_fields kv.1).isSome)
    let kwargs2 :=
      kwargs.filter (fun kv => (dlookup dynamic_fields kv.1).isNone)
    let setAll := fun (inst : Instance) =>
      applyKw st
        (rt.fields.foldl (fun i kv => dinsert i kv.1 kv.2.2) inst)
        del_from_kwargs
    match setAll self with
    | Except.error e => Except.error e
    | Except.ok self1 =>
      match prev_init rt self1 kwargs2 with
      | Except.error e => Except.error e
      | Except.ok self2 => setAll self2

/-- The decorated class: the _FIELDS table set on it, the names left in
its own namespace (the prefixed raw declarations removed, the capability
marker added), and the replaced constructor. The introspectable-signature
extension (lines 206-230) rewrites metadata consumed by tooling only and
is not part of this embedding. -/
structure DecClass where
  fields : FieldsTable
  ownNames : List String
  init : InitFn

/-- _dynamize_fields of field_wrapper.py, for one class: indicator prefix
defaulted to the empty string, ancestor tables merged most base first
with own declarations overriding, prefixed raw declarations removed from
the own namespace and the capability marker added, the constructor
replaced by new_init over the merged table, and, when inheritence_strict
is set, the constructor wrapped by the strictness enforcer keyed on the
capability marker. -/
def dynamize_fields_core (st : GlobalState) (cls : RawClass)
    (indicator_pref : Option String) (inheritence_strict : Bool) :
    Except Err DecClass :=
  let pref := prefOf indicator_pref
  match harvestOwn st pref cls.globalsD cls.clsAnns
      (mergeAncestors cls.ancestorFields) cls.ownDyn with
  | Except.error e => Except.error e
  | Except.ok dynamic_fields =>
    let ownNames2 :=
      (cls.ownNames.filter
        (fun n => !(dynamic_fields.any (fun kv => (pref ++ kv.1) == n))))
        ++ [FIELDS_MARKER]
    let base_init := new_init st dynamic_fields cls.prevInit
    let init2 :=
      if inheritence_strict then
        make_inheritence_strict base_init FIELDS_MARKER
      else base_init
    Except.ok (DecClass.mk dynamic_fields ownNames2 init2)

/-- The kinds of inspect.Parameter. -/
inductive ParamKind where
  | positional_only : ParamKind
  | positional_or_keyword : ParamKind
  | var_positional : ParamKind
  | keyword_only : ParamKind
  | var_keyword : ParamKind
deriving DecidableEq

/-- An inspect.Parameter: name, kind, default (None when the default is
the empty sentinel) and annotation (embedded as a type name). -/
structure Param where
  name : String
  kind : ParamKind
  default : Option Value
  ann : Option String

mutual
/-- Structural equality of embedded values (Python == on these shapes;
mapping comparison is entry-by-entry in order, which is what the concrete
inputs below exercise). -/
def valueBEq : Value → Value → Bool
  | Value.none, Value.none => true
  | Value.int a, Value.int b => a == b
  | Value.str a, Value.str b => a == b
  | Value.dict a, Value.dict b => entriesBEq a b
  | Value.module n a, Value.module m b => n == m && entriesBEq a b
  | Value.obj a, Value.obj b => entriesBEq a b
  | Value.pyfunc p a, Value.pyfunc q b => p == q && entriesBEq a b
  | Value.wrapped a, Value.wrapped b => valueBEq a b
  | _, _ => false
/-- Structural equality of dict entry lists, component of valueBEq. -/
def entriesBEq : List (String × Value) → List (String × Value) → Bool
  | [], [] => true
  | (k, v) :: r, (k2, v2) :: r2 => k == k2 && valueBEq v v2 && entriesBEq r r2
  | _, _ => false
end

/-- Parameter == Parameter: inspect compares the component fields. -/
def paramBEq (p q : Param) : Bool :=
  p.name == q.name && p.kind == q.kind &&
  (match p.default, q.default with
   | Option.none, Option.none => true
   | some a, some b => valueBEq a b
   | _, _ => false) &&
  p.ann == q.ann

/-- Python equality between a str and an inspect.Parameter, as evaluated
by the membership test name in all_parameters of _dynamize_methods:
Parameter.__eq__ returns NotImplemented for a non-Parameter operand,
str.__eq__ likewise for a non-str one, so == falls back to identity and
the comparison is False for every pair. -/
def pyEqStrParam (_ : String) (_ : Param) : Bool := false

/-- The membership test name in all_parameters of method_wrapper.py line
182, under the Python semantics above. -/
def pyStrInParams (s : String) (ps : List Param) : Bool :=
  ps.any (fun p => pyEqStrParam s p)

/-- The annotation placed on the parameters the method engine appends. -/
def FD_ANNOTATION : String := "Optional[FunctionDescriptor]"

/-- The keyword-arguments marker prefix of the method engine. -/
def PREF_FOR_CONSTRUCTOR : String := "__dy__"

/-- Set union of name lists (frozenset.union): keep the left list and
append the members of the right not already present. -/
def nameUnion (a b : List String) : List String :=
  a ++ b.filter (fun x => !(a.contains x))

/-- The class as _dynamize_methods receives it: the methods reachable in
dir(cls) tagged with the dynamic-method marker, each with its own blend
setting (None when the tag left it unset); the recorded dynamic and
blended sets of every entry of cls.__mro__[-1:0:-1]; and the parameters
of the constructor signature. -/
structure RawMClass where
  dirDyn : List (String × Option Bool)
  ancestors : List (Option (List String × List String))
  initParams : List Param

/-- The outcome of method decoration: the recorded dynamic and blended
method name sets and the extended constructor parameter list that the
inspect.Signature constructor validated. The replaced constructor itself
(binding descriptor keyword arguments as instance methods through
eval_function) is exercised by no claim and is not part of this
embedding. -/
structure MDec where
  dynamic_methods : List String
  blended : List String
  params : List Param

/-- The per-dynamic-method prefixed parameters (method_wrapper.py lines
169-178): keyword-only, default None, appended when not already
present. -/
def addPrefixedParams (all : List Param) : List String → List Param
  | [] => all
  | name :: rest =>
    let new_param : Param :=
      Param.mk (PREF_FOR_CONSTRUCTOR ++ name) ParamKind.keyword_only
        (some Value.none) (some FD_ANNOTATION)
    addPrefixedParams
      (if all.any (fun p => paramBEq p new_param) then all
       else all ++ [new_param]) rest

/-- The blended-parameter loop (lines 181-193): the collision check
compares the bare method name against the Parameter objects of the
signature and raises when it matches one; then a keyword-only parameter
with the empty default is appended when not already present. -/
def addBlendedParams (all : List Param) : List String → Except Err (List Param)
  | [] => Except.ok all
  | name :: rest =>
    if pyStrInParams name all then
      Except.error (Err.exceptionError
        "Cannot blend dynamic method with attribute of the same name")
    else
      let new_param : Param :=
        Param.mk name ParamKind.keyword_only Option.none (some FD_ANNOTATION)
      addBlendedParams
        (if all.any (fun p => paramBEq p new_param) then all
         else all ++ [new_param]) rest

/-- The recorded dynamic-method set of _dynamize_methods: the tagged
names in dir(cls), unioned with every recorded ancestor set. -/
def collectDyn (cls : RawMClass) : List String :=
  cls.ancestors.foldl
    (fun a ot => match ot with
                 | some t => nameUnion a t.1
                 | Option.none => nameUnion a [])
    (cls.dirDyn.map (fun kv => kv.1))

/-- The recorded blended set of _dynamize_methods: the tagged names whose
blend tag (defaulting to the decorator option) is set, unioned with every
recorded ancestor set. -/
def collectBlended (cls : RawMClass) (blend : Bool) : List String :=
  cls.ancestors.foldl
    (fun a ot => match ot with
                 | some t => nameUnion a t.2
                 | Option.none => nameUnion a [])
    ((cls.dirDyn.filter
      (fun kv => match kv.2 with
                 | some b => b
                 | Option.none => blend)).map (fun kv => kv.1))

/-- The parameter-list extension of _dynamize_methods (lines 166-193):
the original constructor parameters, then the prefixed loop, then the
blended loop with its dead collision guard. -/
def extendedParams (cls : RawMClass) (blend : Bool) :
    Except Err (List Param) :=
  addBlendedParams (addPrefixedParams cls.initParams (collectDyn cls))
    (collectBlended cls blend)

/-- The numeric order of the inspect parameter kinds. -/
def kindRank : ParamKind → Nat
  | ParamKind.positional_only => 0
  | ParamKind.positional_or_keyword => 1
  | ParamKind.var_positional => 2
  | ParamKind.keyword_only => 3
  | ParamKind.var_keyword => 4

/-- The kinds that take part in the default-ordering validation. -/
def isPositionalKind (k : ParamKind) : Bool :=
  k == ParamKind.positional_only || k == ParamKind.positional_or_keyword

/-- The validation loop that the inspect.Signature constructor (invoked
at method_wrapper.py line 204) runs over the parameter list: kinds must
be non-decreasing (wrong parameter order), within the positional kinds a
parameter without a default must not follow one with a default
(non-default argument follows default argument), and a parameter name
already seen raises ValueError (duplicate parameter name). The arguments
are the running top kind, the running has-seen-a-default flag (reset
whenever the kind increases), and the names seen so far. -/
def signatureValidate :
    Nat → Bool → List String → List Param → Except Err Unit
  | _, _, _, [] => Except.ok ()
  | top_kind, kind_defaults, seen, p :: rest =>
    let kind := kindRank p.kind
    if kind < top_kind then
      Except.error (Err.valueError "wrong parameter order")
    else
      let kd := if top_kind < kind then false else kind_defaults
      let tk := if top_kind < kind then kind else top_kind
      if isPositionalKind p.kind && p.default.isNone && kd then
        Except.error
          (Err.valueError "non-default argument follows default argument")
      else
        let kd2 := kd || (isPositionalKind p.kind && p.default.isSome)
        if p.name ∈ seen then
          Except.error (Err.valueError "duplicate parameter name")
        else signatureValidate tk kd2 (p.name :: seen) rest

/-- _dynamize_methods of method_wrapper.py: collect the tagged methods
(each blend tag defaulting to the decorator option), union with every
recorded ancestor set, extend the constructor signature (one prefixed
optional parameter per dynamic method, one bare parameter per blended
method behind the dead collision guard), drop the var-args parameters,
and build inspect.Signature over the result (line 204) - whose
validation raises ValueError at decoration time on a duplicate name
such as a blended bare name colliding with a surviving constructor
parameter. -/
def dynamize_methods_core (cls : RawMClass) (blend : Bool) :
    Except Err MDec :=
  match extendedParams cls blend with
  | Except.error e => Except.error e
  | Except.ok all2 =>
    let all3 :=
      (all2.filter (fun p => p.kind != ParamKind.var_positional)).filter
        (fun p => p.kind != ParamKind.var_keyword)
    match signatureValidate 0 false [] all3 with
    | Except.error e => Except.error e
    | Except.ok _ =>
      Except.ok (MDec.mk (collectDyn cls) (collectBlended cls blend) all3)

/-- How a dict update resolves a key: the updating entries win (their last
binding when the list repeats a key), else the original dict answers. -/
theorem dlookup_dinsert {α : Type} (a : List (String × α)) (ki k : String)
    (v : α) :
    dlookup (dinsert a ki v) k = if ki = k then some v else dlookup a k := by
  induction a with
  | nil => simp [dinsert, dlookup]
  | cons hd tl ih =>
    obtain ⟨k2, v2⟩ := hd
    by_cases h1 : k2 = ki
    · subst h1
      by_cases h2 : k2 = k <;> simp [dinsert, dlookup, h2]
    · by_cases h2 : k2 = k
      · subst h2
        have h4 : ¬(ki = k2) := fun h5 => h1 h5.symm
        simp [dinsert, dlookup, h1, h4]
      · simp [dinsert, dlookup, h1, h2, ih]

/-- Lookup through a dict update: a key bound by the updating list gets
that binding (the last when repeated); otherwise the original dict is
consulted. -/
theorem dlookup_dupdate {α : Type} (b a : List (String × α)) (k : String) :
    dlookup (dupdate a b) k =
      (match dlookupR b k with
       | some v => some v
       | Option.none => dlookup a k) := by
  induction b generalizing a with
  | nil => simp [dupdate, dlookupR]
  | cons hd bs ih =>
    obtain ⟨k0, v0⟩ := hd
    have hstep : dupdate a ((k0, v0) :: bs) = dupdate (dinsert a k0 v0) bs := rfl
    rw [hstep, ih]
    by_cases h0 : k0 = k
    · subst h0
      cases hR : dlookupR bs k0 <;>
        simp [dlookupR, hR, dlookup_dinsert]
    · cases hR : dlookupR bs k <;>
        simp [dlookupR, hR, dlookup_dinsert, h0]

/-- Claim C1: for every expression, context, selector and flags, the
unified evaluator returns the value-lookup result when the path
resolution succeeds (wrapped by the dynamic-args wrapper when
dynamic_args is set and the value is callable); otherwise it returns the
function-evaluation result when that succeeds; otherwise, when strict is
true, it raises an error embedding both captured underlying failures,
and when strict is false it returns None. -/
theorem eval_precedence (st : GlobalState) (expression : Descriptor)
    (context : Option Value) (strict : Bool) (foi : Option String)
    (dyn : Bool) :
    (∀ v, get_value_d st expression context = Except.ok v →
      eval st expression context strict foi dyn =
        Except.ok (if callableV v && dyn then Value.wrapped v else v)) ∧
    (∀ e fv, get_value_d st expression context = Except.error e →
      (evalFunctionCore st expression foi context dyn).fst = Except.ok fv →
      eval st expression context strict foi dyn = Except.ok fv) ∧
    (∀ e ef, get_value_d st expression context = Except.error e →
      (evalFunctionCore st expression foi context dyn).fst = Except.error ef →
      strict = true →
      eval st expression context strict foi dyn =
        Except.error (Err.composite e ef)) ∧
    (∀ e ef, get_value_d st expression context = Except.error e →
      (evalFunctionCore st expression foi context dyn).fst = Except.error ef →
      strict = false →
      eval st expression context strict foi dyn = Except.ok Value.none) := by
  refine ⟨?_, ?_, ?_, ?_⟩
  · intro v hv
    simp only [eval, hv]
    cases hc : callableV v <;> cases dyn <;>
      simp [hc, dynamic_args_wrapper]
  · intro e fv he hf
    simp only [eval, he, hf]
  · intro e ef he hf hs
    simp only [eval, he, hf, hs, if_true]
  · intro e ef he hf hs
    simp only [eval, he, hf, hs, if_false, Bool.false_eq_true]

/-- A state with an empty import environment and an empty registry. -/
def stEmpty : GlobalState := GlobalState.mk [] []

/-- Program text that is not a single expression and defines nothing. -/
def synStr : PyStr :=
  PyStr.mk "k"
    (fun _ => Except.error Err.syntaxError)
    (fun _ => Except.error Err.syntaxError)

/-- Witness for C1: a dotted-name lookup that succeeds in the explicit
context makes the unified evaluator return it. -/
theorem eval_precedence_witness :
    eval stEmpty (Descriptor.code synStr)
      (some (Value.dict [("k", Value.int 5)])) true Option.none false =
      Except.ok (Value.int 5) := by
  have h :=
    (eval_precedence stEmpty (Descriptor.code synStr)
      (some (Value.dict [("k", Value.int 5)])) true Option.none false).1
      (Value.int 5) (by rfl)
  exact h

/-- The submodule os.path as the ambient machinery exposes it. -/
def osPathV : Value :=
  Value.module "os.path" [("join", Value.pyfunc ["a", "b"] [])]

/-- The top-level module os, carrying os.path as an attribute. -/
def osV : Value := Value.module "os" [("path", osPathV)]

/-- An import environment shaped like the host machinery: the
builtin import with no fromlist returns the top-level module for a name,
so both os and os.path import to the os module object. -/
def stOs : GlobalState := GlobalState.mk [("os", osV), ("os.path", osV)] []

/-- Claim C2 (counterexample): with no context and both directions
succeeding, get_value on os.path returns the upwards-direction result
(the os.path submodule, reached by importing os and taking the path
attribute), not the downwards-direction result (the os module object
itself, which the full-name builtin import hands back together with an
empty suffix) as the claim states for the default configuration. -/
theorem get_value_downwards_default_cex :
    get_value stOs "os.path" false true Option.none 3 = Except.ok osPathV ∧
    get_value_inner stOs "os.path" true false Option.none = Except.ok osV ∧
    (Except.ok osPathV : Except Err Value) ≠ Except.ok osV := by
  refine ⟨rfl, rfl, ?_⟩
  simp [osPathV, osV]

/-- Claim C2 (amended): with no context and both directions producing a
result, the reconciliation returns the non-null side when non-strict
mode produced a null from exactly one side; otherwise the
upwards-direction result, unless prefer_modules is set, in which case
the downwards result is returned when it is a loadable module and the
upwards result otherwise. -/
theorem get_value_both_reconcile (st : GlobalState) (name : String)
    (prefer_modules strict : Bool) (u d : Value)
    (hu : get_value_inner st name strict true Option.none = Except.ok u)
    (hd : get_value_inner st name strict false Option.none = Except.ok d) :
    get_value_both st name prefer_modules strict Option.none =
      (if !strict && isNone u && !(isNone d) then Except.ok d
       else if !strict && !(isNone u) && isNone d then Except.ok u
       else if prefer_modules then
         (if isModule d then Except.ok d else Except.ok u)
       else Except.ok u) := by
  simp only [get_value_both, hu, hd]
  rfl

/-- Witness for the amended C2: at the os.path input both directions
succeed with different values and the strict default returns the
upwards result. -/
theorem get_value_both_reconcile_witness :
    get_value_both stOs "os.path" false true Option.none =
      Except.ok osPathV := by
  have h :=
    get_value_both_reconcile stOs "os.path" false true osPathV osV
      (by rfl) (by rfl)
  exact h

/-- The names a two-function code block defines: f with no parameters and
g with one. -/
def defsC3 : List (String × Value) :=
  [("f", Value.pyfunc [] []), ("g", Value.pyfunc ["x"] [])]

/-- A code block defining the functions f and g; not a single
expression. -/
def blockFG : PyStr :=
  PyStr.mk "def f():\n  return 0\ndef g(x):\n  return x"
    (fun _ => Except.error Err.syntaxError)
    (fun _ => Except.ok defsC3)

/-- Claim C3: for a dict descriptor carrying a code block and its own
function_of_interest entry f, an explicit selector argument g does not
win: dict.get gives the record entry priority (the docstring of
eval_function states the opposite), so the extracted function is f; the
explicit selector alone would have extracted g, a different function. -/
theorem record_selector_wins_over_argument :
    eval_function stEmpty
      (Descriptor.record (some blockFG) Option.none (some "f"))
      (some "g") Option.none false =
      Except.ok (Value.pyfunc [] defsC3) ∧
    generate_function blockFG "g" = Except.ok (Value.pyfunc ["x"] defsC3) ∧
    (Except.ok (Value.pyfunc [] defsC3) : Except Err Value) ≠
      Except.ok (Value.pyfunc ["x"] defsC3) := by
  refine ⟨rfl, rfl, ?_⟩
  simp

/-- An expression reading the name k from its evaluation scope. -/
def exprK : PyStr :=
  PyStr.mk "k"
    (fun ctx =>
      match dlookup ctx "k" with
      | some v => Except.ok v
      | Option.none => Except.error (Err.nameError "k"))
    (fun _ => Except.error Err.syntaxError)

/-- A registry binding k to 2. -/
def stReg : GlobalState := GlobalState.mk [] [("k", Value.int 2)]

/-- Claim C4 (counterexample): with k bound to 1 in the call-argument
context and to 2 in the registry, eval_function evaluates k to 2: the
registry is written over the call-argument context, while the merge order
of the claim (call-argument last) would have produced 1. -/
theorem merge_order_registry_overrides_cex :
    eval_function stReg (Descriptor.code exprK) Option.none
      (some (Value.dict [("k", Value.int 1)])) false =
      Except.ok (Value.int 2) ∧
    exprK.asExpr (dupdate (dupdate [] stReg.registry) [("k", Value.int 1)]) =
      Except.ok (Value.int 1) ∧
    (Except.ok (Value.int 2) : Except Err Value) ≠ Except.ok (Value.int 1) := by
  refine ⟨rfl, rfl, ?_⟩
  simp

/-- Claim C4 (amended): the evaluation context of eval_function merges, in
this order, the call-argument context (or a fresh empty dict when it is
falsy) as the base, then the process-wide registry, then the context
carried by a dict descriptor, later sources overriding earlier ones on
shared keys - so a key present in both the call-argument context and the
registry resolves to the registry value. -/
theorem merge_order_source (st : GlobalState) (s : PyStr) (rc : Ctx)
    (rfoi foi : Option String) (context : Option Value) (base : Ctx)
    (dyn : Bool) (v : Value)
    (hb : ctxBaseE context = Except.ok base) :
    (s.asExpr (dupdate base st.registry) = Except.ok v →
      eval_function st (Descriptor.code s) foi context dyn =
        bindWrap dyn (Except.ok v)) ∧
    (s.asExpr (dupdate (dupdate base st.registry) rc) = Except.ok v →
      eval_function st (Descriptor.record (some s) (some rc) rfoi) foi
        context dyn = bindWrap dyn (Except.ok v)) := by
  constructor
  · intro hx
    simp only [eval_function, evalFunctionCore, hb, hx]
  · intro hx
    simp only [eval_function, evalFunctionCore, hb, hx]

/-- Witness for the amended C4: a dict descriptor context k = 3 overrides
both the registry k = 2 and the caller k = 1. -/
theorem merge_order_source_witness :
    eval_function stReg
      (Descriptor.record (some exprK) (some [("k", Value.int 3)]) Option.none)
      Option.none (some (Value.dict [("k", Value.int 1)])) false =
      Except.ok (Value.int 3) := by
  have h :=
    (merge_order_source stReg exprK [("k", Value.int 3)] Option.none
      Option.none (some (Value.dict [("k", Value.int 1)]))
      [("k", Value.int 1)] false (Value.int 3) (by rfl)).2 (by rfl)
  exact h

/-- The value a code block reads for x from its execution scope: the
bound value when the scope holds one, else None (the block catches the
NameError). -/
def seedY (scope : Ctx) : Value :=
  match dlookup scope "x" with
  | some v => v
  | Option.none => Value.none

/-- A code block capturing the ambient x into y and defining a function
over it; not a single expression. -/
def blockSeed : PyStr :=
  PyStr.mk
    "try:\n  y = x\nexcept NameError:\n  y = None\ndef function():\n  return y"
    (fun _ => Except.error Err.syntaxError)
    (fun scope =>
      Except.ok
        [("y", seedY scope),
         ("function", Value.pyfunc [] [("y", seedY scope)])])

/-- A registry binding x to 42. -/
def stX : GlobalState := GlobalState.mk [] [("x", Value.int 42)]

/-- Claim C5: the code-block branch of eval_function executes the block
through generate_function with a fresh empty globals and locals, not the
merged evaluation context (the docstring of eval_function says the
context is used when evaluating the code block): with x bound to 42 in
the registry, the extracted function captured None for y, while the same
block executed in the merged context would have captured 42. -/
theorem block_ignores_merged_context :
    eval_function stX (Descriptor.code blockSeed) (some "function")
      Option.none false =
      Except.ok
        (Value.pyfunc []
          [("y", Value.none),
           ("function", Value.pyfunc [] [("y", Value.none)])]) ∧
    blockSeed.asBlock (dupdate [] stX.registry) =
      Except.ok
        [("y", Value.int 42),
         ("function", Value.pyfunc [] [("y", Value.int 42)])] ∧
    (Value.pyfunc []
      [("y", Value.none),
       ("function", Value.pyfunc [] [("y", Value.none)])]) ≠
      (Value.pyfunc []
        [("y", Value.int 42),
         ("function", Value.pyfunc [] [("y", Value.int 42)])]) := by
  refine ⟨rfl, rfl, ?_⟩
  simp

/-- A non-eval dynamic field with an integer literal default. -/
def dfInt (n : Int) : DynamicField :=
  DynamicField.mk true false false Option.none (Value.int n)

/-- The constructor every chain bottoms out in: object.__init__, which
accepts no keyword arguments. -/
def objInit : InitFn :=
  fun _ self kwargs =>
    if kwargs.isEmpty then Except.ok self
    else Except.error (Err.typeError "object.__init__")

/-- The base class A declaring the dynamic field a = 1 (its only ancestor
is object, which carries no capability table). -/
def rawA : RawClass :=
  RawClass.mk [Option.none] [("a", dfInt 1)] [] [] ["a"] objInit

/-- A decorated with default indicator prefix and strict inheritance. -/
def decAE : Except Err DecClass :=
  dynamize_fields_core stEmpty rawA Option.none true

/-- The capability table of the decorated A. -/
def fieldsA : FieldsTable :=
  match decAE with | Except.ok d => d.fields | Except.error _ => []

/-- The constructor of the decorated A. -/
def initA : InitFn :=
  match decAE with | Except.ok d => d.init | Except.error _ => objInit

/-- The decorated A itself. -/
def decAD : DecClass :=
  match decAE with
  | Except.ok d => d
  | Except.error _ => DecClass.mk [] [] objInit

/-- The subclass B of A redeclaring the field a = 3 (mro ancestors,
most base first: object, then A). -/
def rawB : RawClass :=
  RawClass.mk [Option.none, some fieldsA] [("a", dfInt 3)] [] [] ["a"] initA

/-- B decorated. -/
def decBE : Except Err DecClass :=
  dynamize_fields_core stEmpty rawB Option.none true

/-- The capability table of the decorated B. -/
def fieldsB : FieldsTable :=
  match decBE with | Except.ok d => d.fields | Except.error _ => []

/-- The constructor of the decorated B. -/
def initB : InitFn :=
  match decBE with | Except.ok d => d.init | Except.error _ => objInit

/-- The subclass S of A declaring the fresh field b = 2 (the first
scenario of the claim). -/
def rawS : RawClass :=
  RawClass.mk [Option.none, some fieldsA] [("b", dfInt 2)] [] [] ["b"] initA

/-- S decorated. -/
def decSE : Except Err DecClass :=
  dynamize_fields_core stEmpty rawS Option.none true

/-- An instance of S constructed with no overrides. -/
def instS : Except Err Instance :=
  match decSE with
  | Except.ok d => d.init (RTClass.mk d.fields d.ownNames) [] []
  | Except.error e => Except.error e

/-- The grandchild C of B declaring no field of its own (mro ancestors,
most base first: object, A, B). -/
def rawG : RawClass :=
  RawClass.mk [Option.none, some fieldsA, some fieldsB] [] [] [] [] initB

/-- The grandchild decorated. -/
def decGE : Except Err DecClass :=
  dynamize_fields_core stEmpty rawG Option.none true

/-- The capability table of the decorated grandchild. -/
def fieldsG : FieldsTable :=
  match decGE with | Except.ok d => d.fields | Except.error _ => []

/-- An instance of the grandchild constructed with no overrides. -/
def instG : Except Err Instance :=
  match decGE with
  | Except.ok d => d.init (RTClass.mk d.fields d.ownNames) [] []
  | Except.error e => Except.error e

/-- Claim C6: the two-level scenarios of the claim hold (a subclass
declaring b = 2 has a = 1 and b = 2; a subclass redeclaring a = 3 has
a = 3), but the ancestry walk does not let a more derived declaration
override an ancestor: the guard of the merge loop keeps the first table
entry seen, and the tables are walked most base first, so a grandchild
of B inherits a = 1 from A even though B - more derived - redeclared
a = 3 and recorded it in its own table. The source comment above the
loop, taken from dataclasses, states the opposite intent. -/
theorem fields_merge_keeps_most_base :
    (match instS with
     | Except.ok i => (dlookup i "a", dlookup i "b")
     | Except.error _ => (Option.none, Option.none)) =
      (some (Value.int 1), some (Value.int 2)) ∧
    (match decBE with
     | Except.ok d =>
       d.init (RTClass.mk d.fields d.ownNames) [] [] |>.map
         (fun i => dlookup i "a")
     | Except.error _ => Except.error (Err.typeError "unreachable")) =
      Except.ok (some (Value.int 3)) ∧
    dlookup fieldsB "a" = some ("int", Value.int 3) ∧
    dlookup fieldsG "a" = some ("int", Value.int 1) ∧
    (match instG with
     | Except.ok i => dlookup i "a"
     | Except.error _ => Option.none) = some (Value.int 1) := by
  exact ⟨rfl, rfl, rfl, rfl, rfl⟩

/-- Claim C7: a class decorated with strict inheritance carries the
capability marker directly in its own namespace, and its constructor
first checks the runtime class of the instance being constructed:
without the marker directly present (an un-augmented subclass, which is
defined without any check firing) every instantiation fails with the
strictness error, and with the marker present the check passes and the
constructor proceeds as the rewritten new_init. -/
theorem strict_subtype_instantiation (st : GlobalState) (raw : RawClass)
    (ip : Option String) (d : DecClass)
    (h : dynamize_fields_core st raw ip true = Except.ok d)
    (rt : RTClass) (self : Instance) (kwargs : List (String × KwVal)) :
    FIELDS_MARKER ∈ d.ownNames ∧
    (FIELDS_MARKER ∉ rt.ownNames →
      d.init rt self kwargs =
        Except.error (Err.attributeError strictViolationMsg)) ∧
    (FIELDS_MARKER ∈ rt.ownNames →
      d.init rt self kwargs =
        new_init st d.fields raw.prevInit rt self kwargs) := by
  simp only [dynamize_fields_core] at h
  cases hh : harvestOwn st (prefOf ip) raw.globalsD raw.clsAnns
      (mergeAncestors raw.ancestorFields) raw.ownDyn with
  | error e =>
    rw [hh] at h
    cases h
  | ok tbl =>
    rw [hh] at h
    have h2 := Except.ok.inj h
    subst h2
    refine ⟨?_, ?_, ?_⟩
    · simp
    · intro hm
      simp [make_inheritence_strict, hm]
    · intro hm
      simp [make_inheritence_strict, hm]

/-- Witness for C7: at the concrete decorated base class, a runtime class
without the marker in its own namespace fails the check and one with it
passes through to new_init. -/
theorem strict_subtype_instantiation_witness :
    FIELDS_MARKER ∈ decAD.ownNames ∧
    decAD.init (RTClass.mk decAD.fields []) [] [] =
      Except.error (Err.attributeError strictViolationMsg) ∧
    decAD.init (RTClass.mk decAD.fields [FIELDS_MARKER]) [] [] =
      new_init stEmpty decAD.fields objInit
        (RTClass.mk decAD.fields [FIELDS_MARKER]) [] [] := by
  have h1 :=
    strict_subtype_instantiation stEmpty rawA Option.none decAD (by rfl)
      (RTClass.mk decAD.fields []) [] []
  have h2 :=
    strict_subtype_instantiation stEmpty rawA Option.none decAD (by rfl)
      (RTClass.mk decAD.fields [FIELDS_MARKER]) [] []
  exact ⟨h1.1, h1.2.1 (by simp), h2.2.2 (by simp)⟩

/-- A context mapping x to 42, registered under the name myctx. -/
def ctxMy : Value := Value.dict [("x", Value.int 42)]

/-- The state after registering ctxMy as myctx in an empty process. -/
def stRegOnly : GlobalState := GlobalState.mk [] [("myctx", ctxMy)]

/-- Claim C8 (counterexample): registering myctx in the registry does not
make get_value resolve paths rooted at it: with nothing importable,
resolving myctx.x with no context returns None (the upwards direction
exhausts every prefix and hands back the unset import variable with an
empty suffix), while resolving x against the context passed explicitly
returns 42; the two results differ. -/
theorem registry_root_not_resolved_cex :
    register_context (GlobalState.mk [] []) ctxMy "myctx" = stRegOnly ∧
    get_value stRegOnly "myctx.x" false true Option.none 3 =
      Except.ok Value.none ∧
    get_value stRegOnly "x" false true (some ctxMy) 3 =
      Except.ok (Value.int 42) ∧
    (Except.ok Value.none : Except Err Value) ≠ Except.ok (Value.int 42) := by
  refine ⟨rfl, rfl, rfl, ?_⟩
  simp

/-- importer reads only the import environment of the state. -/
theorem importer_ir (env : ImportEnv) (reg reg2 : Ctx) (n : String) :
    importer (GlobalState.mk env reg) n =
    importer (GlobalState.mk env reg2) n := rfl

/-- The greedy trial loop reads only the import environment. -/
theorem greedyGo_ir (env : ImportEnv) (reg reg2 : Ctx) (h : List String)
    (l : List Nat) :
    greedyGo (GlobalState.mk env reg) h l =
    greedyGo (GlobalState.mk env reg2) h l := by
  induction l with
  | nil => rfl
  | cons i t ih =>
    cases t with
    | nil => simp only [greedyGo, importer_ir env reg reg2]
    | cons j rest =>
      simp only [greedyGo, importer_ir env reg reg2]
      rw [ih]

/-- greedy_import_context reads only the import environment. -/
theorem greedy_ir (env : ImportEnv) (reg reg2 : Ctx) (name : String)
    (up : Bool) (lv : Nat) :
    greedy_import_context (GlobalState.mk env reg) name up lv =
    greedy_import_context (GlobalState.mk env reg2) name up lv := by
  simp only [greedy_import_context]
  cases trialIndices (splitDots name).length lv up with
  | nil => rfl
  | cons i rest =>
    show Except.ok (greedyGo (GlobalState.mk env reg) (splitDots name) (i :: rest)) =
      Except.ok (greedyGo (GlobalState.mk env reg2) (splitDots name) (i :: rest))
    rw [greedyGo_ir]

/-- The inner resolver reads only the import environment. -/
theorem get_value_inner_ir (env : ImportEnv) (reg reg2 : Ctx)
    (name : String) (strict up : Bool) (context : Option Value) :
    get_value_inner (GlobalState.mk env reg) name strict up context =
    get_value_inner (GlobalState.mk env reg2) name strict up context := by
  cases context with
  | none =>
    simp only [get_value_inner]
    rw [greedy_ir env reg reg2]
  | some c => rfl

/-- The direction-reconciling resolver reads only the import
environment. -/
theorem get_value_both_ir (env : ImportEnv) (reg reg2 : Ctx)
    (name : String) (prefer_modules strict : Bool) (context : Option Value) :
    get_value_both (GlobalState.mk env reg) name prefer_modules strict context =
    get_value_both (GlobalState.mk env reg2) name prefer_modules strict context := by
  simp only [get_value_both]
  rw [get_value_inner_ir env reg reg2 name strict true context,
    get_value_inner_ir env reg reg2 name strict false context]

/-- The retry loop reads only the import environment. -/
theorem get_value_go_ir (env : ImportEnv) (reg reg2 : Ctx)
    (name : String) (prefer_modules strict : Bool) (context : Option Value)
    (fuel : Nat) :
    get_value_go (GlobalState.mk env reg) name prefer_modules strict context fuel =
    get_value_go (GlobalState.mk env reg2) name prefer_modules strict context fuel := by
  induction fuel with
  | zero =>
    simp only [get_value_go]
    rw [get_value_both_ir env reg reg2]
  | succ k ih =>
    simp only [get_value_go]
    rw [get_value_both_ir env reg reg2, ih]

/-- Claim C8 (amended): get_value never consults the context registry:
its result is invariant under any change of the registry, for every
name, options, context and retry budget, so registering a context under
a name does not make paths rooted at that name resolve to it; registered
names reach code only through the evaluation context of
eval_function. -/
theorem get_value_ignores_registry (env : ImportEnv) (reg reg2 : Ctx)
    (name : String) (prefer_modules strict : Bool) (context : Option Value)
    (num_trys : Nat) :
    get_value (GlobalState.mk env reg) name prefer_modules strict context num_trys =
    get_value (GlobalState.mk env reg2) name prefer_modules strict context num_trys := by
  simp only [get_value]
  exact get_value_go_ir env reg reg2 name prefer_modules strict context (num_trys - 1)

/-- The self parameter of a constructor. -/
def selfParam : Param :=
  Param.mk "self" ParamKind.positional_or_keyword Option.none Option.none

/-- A constructor parameter named foo. -/
def fooParam : Param :=
  Param.mk "foo" ParamKind.positional_or_keyword Option.none Option.none

/-- A class with a blended dynamic method foo whose constructor already
has a parameter foo. -/
def rawFoo : RawMClass :=
  RawMClass.mk [("foo", Option.none)] [Option.none] [selfParam, fooParam]

/-- A class with a blended dynamic method bar whose bare name collides
with no constructor parameter. -/
def rawBar : RawMClass :=
  RawMClass.mk [("bar", Option.none)] [Option.none] [selfParam, fooParam]

/-- A parameter list the Signature validation accepts has pairwise
distinct names, all of them outside the already-seen set. -/
theorem signatureValidate_ok_nodup (ps : List Param) :
    ∀ (tk : Nat) (kd : Bool) (seen : List String),
      signatureValidate tk kd seen ps = Except.ok () →
      (ps.map Param.name).Nodup ∧
        ∀ n ∈ ps.map Param.name, n ∉ seen := by
  induction ps with
  | nil =>
    intro tk kd seen h
    simp
  | cons p rest ih =>
    intro tk kd seen h
    simp only [signatureValidate] at h
    split_ifs at h with h1 h2 h3 h4 h5 h6
    all_goals (
      obtain ⟨hnd, hns⟩ := ih _ _ _ h
      refine ⟨?_, ?_⟩
      · simp only [List.map_cons, List.nodup_cons]
        refine ⟨?_, hnd⟩
        intro hmem
        exact (hns _ hmem) (List.mem_cons_self _ _)
      · intro n hn
        rcases List.mem_cons.mp hn with hn1 | hn2
        · subst hn1
          first
            | exact h3
            | exact h4
            | exact h5
            | exact h6
        · intro hcon
          exact (hns _ hn2) (List.mem_cons_of_mem _ hcon))

/-- Claim C9: the explicit collision guard of the blended loop is dead
(its membership test compares a str against Parameter objects), but the
inspect.Signature construction over the extended parameter list at line
204 validates it at decoration time: decoration returns successfully
only when the parameter names - the surviving constructor parameters
together with the appended dynamic and blended ones - are pairwise
distinct, so decorating a class whose blended method foo collides with
the constructor parameter foo fails at augmentation time with the
duplicate-parameter-name ValueError, while the same class with the
non-colliding blended method bar is decorated without error. -/
theorem blended_collision_fails_at_decoration :
    (∀ (cls : RawMClass) (blend : Bool) (m : MDec),
      dynamize_methods_core cls blend = Except.ok m →
      (m.params.map Param.name).Nodup) ∧
    dynamize_methods_core rawFoo true =
      Except.error (Err.valueError "duplicate parameter name") ∧
    dynamize_methods_core rawBar true =
      Except.ok
        (MDec.mk ["bar"] ["bar"]
          [selfParam, fooParam,
           Param.mk (PREF_FOR_CONSTRUCTOR ++ "bar") ParamKind.keyword_only
             (some Value.none) (some FD_ANNOTATION),
           Param.mk "bar" ParamKind.keyword_only Option.none
             (some FD_ANNOTATION)]) := by
  refine ⟨?_, rfl, rfl⟩
  intro cls blend m h
  unfold dynamize_methods_core at h
  cases hb : extendedParams cls blend with
  | error e =>
    rw [hb] at h
    cases h
  | ok all2 =>
    rw [hb] at h
    have h2 :
        (match signatureValidate 0 false []
            ((all2.filter (fun p => p.kind != ParamKind.var_positional)).filter
              (fun p => p.kind != ParamKind.var_keyword)) with
         | Except.error e => (Except.error e : Except Err MDec)
         | Except.ok _ =>
           Except.ok
             (MDec.mk (collectDyn cls) (collectBlended cls blend)
               ((all2.filter
                  (fun p => p.kind != ParamKind.var_positional)).filter
                 (fun p => p.kind != ParamKind.var_keyword)))) =
          Except.ok m := h
    cases hv : signatureValidate 0 false []
        ((all2.filter (fun p => p.kind != ParamKind.var_positional)).filter
          (fun p => p.kind != ParamKind.var_keyword)) with
    | error e =>
      rw [hv] at h2
      cases h2
    | ok u =>
      cases u
      rw [hv] at h2
      have h3 := Except.ok.inj h2
      have h4 := (signatureValidate_ok_nodup _ 0 false [] hv).1
      rw [← h3]
      exact h4

/-- Witness for C9: the decoration of the non-colliding class succeeds
and therefore carries pairwise distinct parameter names. -/
theorem blended_collision_fails_at_decoration_witness :
    (([selfParam, fooParam,
       Param.mk (PREF_FOR_CONSTRUCTOR ++ "bar") ParamKind.keyword_only
         (some Value.none) (some FD_ANNOTATION),
       Param.mk "bar" ParamKind.keyword_only Option.none
         (some FD_ANNOTATION)].map Param.name).Nodup) := by
  have h :=
    blended_collision_fails_at_decoration.1 rawBar true
      (MDec.mk ["bar"] ["bar"]
        [selfParam, fooParam,
         Param.mk (PREF_FOR_CONSTRUCTOR ++ "bar") ParamKind.keyword_only
           (some Value.none) (some FD_ANNOTATION),
         Param.mk "bar" ParamKind.keyword_only Option.none
           (some FD_ANNOTATION)]) (by rfl)
  exact h

/-- An expression evaluating to 0 in any scope. -/
def exprZero : PyStr :=
  PyStr.mk "0" (fun _ => Except.ok (Value.int 0))
    (fun _ => Except.error Err.syntaxError)

/-- A registry binding r to 1. -/
def stR1 : GlobalState := GlobalState.mk [] [("r", Value.int 1)]

/-- Claim C10 (counterexample): an empty caller dict is falsy, so the
expression (context or dict()) replaces it with a fresh dict: after a
successful eval_function call the caller dict is still empty and does not
contain the registry entry r, contrary to the claim quantified over every
dict argument. -/
theorem context_not_mutated_when_empty_cex :
    (evalFunctionCore stR1 (Descriptor.code exprZero) Option.none
        (some (Value.dict [])) false).fst = Except.ok (Value.int 0) ∧
    (evalFunctionCore stR1 (Descriptor.code exprZero) Option.none
        (some (Value.dict [])) false).snd = some (Value.dict []) ∧
    dlookup stR1.registry "r" = some (Value.int 1) ∧
    dlookup ([] : Ctx) "r" = Option.none ∧
    (Option.none : Option Value) ≠ some (Value.int 1) := by
  refine ⟨rfl, rfl, rfl, rfl, ?_⟩
  simp

/-- Claim C10 (amended): for every call to eval_function with a non-empty
dict passed as the context argument and a string or dict descriptor, the
caller dict is mutated in place (whether or not the evaluation then
succeeds): afterwards it holds, at each key, the record-context binding
when there is one, else the registry binding, else its own original
binding - so every registry entry not shadowed by the record context and
every record-context entry is present, overwriting equal caller keys; an
empty dict, being falsy, is replaced by a fresh dict and left
untouched. -/
theorem context_mutation (st : GlobalState) (s : PyStr) (rc : Ctx)
    (rfoi foi : Option String) (d : Ctx) (dyn : Bool) (hne : d ≠ []) :
    ((evalFunctionCore st (Descriptor.code s) foi (some (Value.dict d)) dyn).snd =
        some (Value.dict (dupdate d st.registry)) ∧
      ∀ k, dlookup (dupdate d st.registry) k =
        (match dlookupR st.registry k with
         | some v => some v
         | Option.none => dlookup d k)) ∧
    ((evalFunctionCore st (Descriptor.record (some s) (some rc) rfoi) foi
          (some (Value.dict d)) dyn).snd =
        some (Value.dict (dupdate (dupdate d st.registry) rc)) ∧
      ∀ k, dlookup (dupdate (dupdate d st.registry) rc) k =
        (match dlookupR rc k with
         | some v => some v
         | Option.none =>
           match dlookupR st.registry k with
           | some v => some v
           | Option.none => dlookup d k)) := by
  cases d with
  | nil => exact absurd rfl hne
  | cons hd tl =>
    refine ⟨⟨rfl, ?_⟩, ⟨rfl, ?_⟩⟩
    · intro k
      rw [dlookup_dupdate]
      cases dlookupR st.registry k <;> rfl
    · intro k
      rw [dlookup_dupdate, dlookup_dupdate]
      cases dlookupR rc k with
      | none => cases dlookupR st.registry k <;> rfl
      | some v => rfl

/-- Witness for the amended C10: a one-entry caller dict picks up the
registry entry r = 1 in place. -/
theorem context_mutation_witness :
    (evalFunctionCore stR1 (Descriptor.code exprZero) Option.none
        (some (Value.dict [("k", Value.int 9)])) false).snd =
      some (Value.dict [("k", Value.int 9), ("r", Value.int 1)]) := by
  have h :=
    ((context_mutation stR1 exprZero [] Option.none Option.none
      [("k", Value.int 9)] false (by simp)).1).1
  rw [h]
  rfl

end Dy
